import Mathlib

/-!
Verification of the Earth_Sat satellite-tracking engine.

Shallow embedding of the computational core of the repository:
 - `open.py`   : `calculate_visibility`, `get_pass_predictions` (event grouping,
                 exception fallback paths),
 - `app.py`    : `load_tle_data` (batch TLE parsing loop),
 - `segment1.py`: `SatelliteTracker.eci_to_lla`, `SatelliteTracker.is_visible`,
                 `SatelliteTracker.calculate_ground_track`.

Floating-point arithmetic is modelled over `ℝ` (trigonometric code) and `ℚ`
(pure comparisons, record arithmetic).  External library calls (skyfield's
`altaz`/`find_events`, sgp4's `Satrec.sgp4` and `jday`, skyfield's
`EarthSatellite` constructor) are modelled as explicit function arguments or
`Option`-valued inputs: `none` stands for "the external call raised an
exception", which in the Python source is what the enclosing `try:` blocks
catch.  Everything after the external call is translated directly from the
source.
-/

namespace EarthSat

/-! ## Data model for `open.py` visibility and pass records -/

/-- Result of skyfield's topocentric `altaz()` computation (external to the
repository): elevation and azimuth in degrees.  Input to
`calculate_visibility`'s own logic in `open.py` lines 82-91. -/
structure Topocentric where
  elevation : ℚ
  azimuth : ℚ
deriving DecidableEq

/-- The dictionary returned by `calculate_visibility` in `open.py` lines 87-93:
keys `visible`, `elevation`, `azimuth`. -/
structure VisibilityResult where
  visible : Bool
  elevation : ℚ
  azimuth : ℚ
deriving DecidableEq

/-- Python's built-in `round` on a value already scaled to an integer position:
round half to even (banker's rounding). -/
def roundHalfEven (s : ℚ) : ℤ :=
  if s - ⌊s⌋ < 1 / 2 then ⌊s⌋
  else if 1 / 2 < s - ⌊s⌋ then ⌊s⌋ + 1
  else if ⌊s⌋ % 2 = 0 then ⌊s⌋ else ⌊s⌋ + 1

/-- Python's `round(x, 2)` used in `open.py` lines 89-90. -/
def round2 (q : ℚ) : ℚ := (roundHalfEven (q * 100) : ℚ) / 100

/-- Embedding of `calculate_visibility` from `open.py` lines 75-93.  The
geometry (skyfield `wgs84.latlon`, `satellite.at`, `altaz`) is external; its
outcome is the `geo` argument, with `none` for "some call inside the `try:`
raised".  The source then computes `visible` as `elevation > min_elevation`
(strict) and rounds the reported angles to 2 decimals; on `except:` it returns
the literal dictionary with `visible = False`, `elevation = 0`, `azimuth = 0`. -/
def calculate_visibility (geo : Option Topocentric) (min_elevation : ℚ) : VisibilityResult :=
  match geo with
  | some t =>
    { visible := decide (min_elevation < t.elevation)
      elevation := round2 t.elevation
      azimuth := round2 t.azimuth }
  | none => { visible := false, elevation := 0, azimuth := 0 }

/-- One pass record built by `get_pass_predictions` in `open.py` lines 130-135:
rise, max (peak) and set instants plus `duration = set_time - rise_time`.
Instants are modelled as rationals (seconds on some absolute scale); the
`strftime` string formatting of the source is presentation and not modelled. -/
structure PassEvent where
  rise : ℚ
  max : ℚ
  set : ℚ
  duration : ℚ
deriving DecidableEq

/-- The grouping loop of `get_pass_predictions` (`open.py` lines 124-135):
`for i in range(0, len(times), 3): if i + 2 < len(times):` take
`times[i], times[i+1], times[i+2]` as rise/max/set.  A trailing remainder of
one or two event times produces nothing. -/
def groupPasses : List ℚ → List PassEvent
  | t0 :: t1 :: t2 :: rest =>
    { rise := t0, max := t1, set := t2, duration := t2 - t0 } :: groupPasses rest
  | _ => []

/-- Embedding of `get_pass_predictions` from `open.py` lines 114-140.  The
skyfield `find_events` call is external; `events = none` models "something in
the `try:` raised", in which case the source returns `[]`.  `events = some ts`
carries the chronological event times returned by `find_events` (the source
ignores the event-kind codes entirely). -/
def get_pass_predictions (events : Option (List ℚ)) : List PassEvent :=
  match events with
  | some times => groupPasses times
  | none => []

/-! ## Data model for `app.py` TLE batch loading -/

/-- Python's `str.strip()`: drop whitespace from both ends.  (Executable
re-implementation over the character list; `String.trim` is extensionally the
same but does not reduce in the kernel.) -/
def pyStrip (s : String) : String :=
  ⟨((s.data.dropWhile Char.isWhitespace).reverse.dropWhile Char.isWhitespace).reverse⟩

/-- The record-chunking of `load_tle_data` (`app.py` lines 171-176):
`for i in range(0, len(tle_lines), 3): if i + 2 >= len(tle_lines): break`,
then `.strip()` each of the three lines.  Fewer than three remaining lines
terminate the loop, dropping the incomplete trailing record. -/
def chunk3 : List String → List (String × String × String)
  | name :: l1 :: l2 :: rest => (pyStrip name, pyStrip l1, pyStrip l2) :: chunk3 rest
  | _ => []

/-- The per-record body of `load_tle_data`'s loop (`app.py` line 177):
`satellites[name] = EarthSatellite(line1, line2, name, ts)`.  The
`EarthSatellite` constructor is external and may raise; `parse` returning
`none` models that.  There is no per-record `try:` in `load_tle_data`, so an
exception propagates to the function-level `except` (`app.py` lines 180-181):
the loop stops, the records inserted so far remain in the global dict, and
everything after the bad record is lost. -/
def loadRecords {α : Type} (parse : String → String → Option α) :
    List (String × String × String) → List (String × α)
  | [] => []
  | (name, l1, l2) :: rest =>
    match parse l1 l2 with
    | some sat => (name, sat) :: loadRecords parse rest
    | none => []

/-- Embedding of `load_tle_data` from `app.py` lines 162-181: split into
three-line records and build satellite objects, with the abort-on-exception
behaviour of `loadRecords`. -/
def load_tle_data {α : Type} (parse : String → String → Option α)
    (tle_lines : List String) : List (String × α) :=
  loadRecords parse (chunk3 tle_lines)

/-- Embedding of the per-record loop of `fetch_tle_data` from `open.py`
lines 61-68: each record is built inside its own `try: ... except: continue`,
so a failing record is skipped and the loop continues. -/
def fetch_tle_data {α : Type} (parse : String → String → Option α) :
    List (String × String × String) → List α
  | [] => []
  | (_, l1, l2) :: rest =>
    match parse l1 l2 with
    | some sat => sat :: fetch_tle_data parse rest
    | none => fetch_tle_data parse rest

/-- Concrete parse function for witnesses and counterexamples: fails exactly on
a record whose first TLE line is the marker text, models one malformed record
in a batch. -/
def parseDemo : String → String → Option Unit :=
  fun l1 _ => if l1 = "BAD" then none else some ()

/-! ## Embedding of `segment1.py` (`SatelliteTracker`) over the reals -/

/-- Earth's equatorial radius in km, `SatelliteTracker.__init__`
(`segment1.py` line 11). -/
noncomputable def earth_radius : ℝ := 6378.137

/-- Earth's eccentricity squared, `SatelliteTracker.__init__`
(`segment1.py` line 12): `0.08181919 ** 2`. -/
noncomputable def e2 : ℝ := 0.08181919 ^ 2

/-- numpy's `arctan2(y, x)`: the angle of the point `(x, y)` in `(-pi, pi]`.
Signed zeros of IEEE arithmetic do not exist over `ℝ`; on the axes this matches
numpy on the representatives that occur in the repository (`arctan2(y, 0)` is
`pi/2` for `y > 0`, `-pi/2` for `y < 0`, `0` at the origin). -/
noncomputable def atan2 (y x : ℝ) : ℝ :=
  if 0 < x then Real.arctan (y / x)
  else if x < 0 then
    if 0 ≤ y then Real.arctan (y / x) + Real.pi
    else Real.arctan (y / x) - Real.pi
  else
    if 0 < y then Real.pi / 2
    else if y < 0 then -(Real.pi / 2)
    else 0

/-- numpy's `deg2rad` / `radians`. -/
noncomputable def deg2rad (d : ℝ) : ℝ := d * (Real.pi / 180)

/-- numpy's `degrees`. -/
noncomputable def degrees (r : ℝ) : ℝ := r * (180 / Real.pi)

/-- Python's float `% 360` for a real operand (the source applies it to
`np.degrees(lon)` and to the GST expression): `x - 360 * floor(x / 360)`. -/
noncomputable def fmod360 (x : ℝ) : ℝ := x - 360 * ⌊x / 360⌋

/-- One iteration of the latitude fixed-point loop in `eci_to_lla`
(`segment1.py` lines 24-26): `lat = arctan2(z + e2 * earth_radius * sin(lat), p)`. -/
noncomputable def latIter (z p lat : ℝ) : ℝ :=
  atan2 (z + e2 * earth_radius * Real.sin lat) p

/-- Embedding of `SatelliteTracker.eci_to_lla` from `segment1.py` lines 14-33:
longitude from `arctan2(y, x) - deg2rad(gst)`, latitude by the 5-iteration
fixed point (loop unrolled), altitude `p / cos(lat) - N`, and the return value
`(degrees(lat), degrees(lon) % 360, alt)`. -/
noncomputable def eci_to_lla (x y z gst : ℝ) : ℝ × ℝ × ℝ :=
  let lon := atan2 y x - deg2rad gst
  let p := Real.sqrt (x ^ 2 + y ^ 2)
  let lat0 := atan2 z (p * (1 - e2))
  let lat1 := latIter z p lat0
  let lat2 := latIter z p lat1
  let lat3 := latIter z p lat2
  let lat4 := latIter z p lat3
  let lat := latIter z p lat4
  let sin_lat := Real.sin lat
  let N := earth_radius / Real.sqrt (1 - e2 * sin_lat ^ 2)
  let alt := p / Real.cos lat - N
  (degrees lat, fmod360 (degrees lon), alt)

/-- Embedding of `SatelliteTracker.is_visible` from `segment1.py` lines 59-78:
haversine great-circle distance between sub-satellite point and ground
station, elevation `degrees(arctan2(sat_alt, distance))`, and the verdict
`elevation >= min_elevation`.  Triples are (lat, lon, alt) in degrees/km; the
ground station's altitude component is ignored by the source. -/
noncomputable def is_visible (sat_lla gs_lla : ℝ × ℝ × ℝ) (min_elevation : ℝ) : Prop × ℝ :=
  let sat_alt := sat_lla.2.2
  let sat_lat := deg2rad sat_lla.1
  let sat_lon := deg2rad sat_lla.2.1
  let gs_lat := deg2rad gs_lla.1
  let gs_lon := deg2rad gs_lla.2.1
  let dlat := sat_lat - gs_lat
  let dlon := sat_lon - gs_lon
  let a := Real.sin (dlat / 2) ^ 2 + Real.cos gs_lat * Real.cos sat_lat * Real.sin (dlon / 2) ^ 2
  let c := 2 * atan2 (Real.sqrt a) (Real.sqrt (1 - a))
  let distance := earth_radius * c
  let elevation := degrees (atan2 sat_alt distance)
  (elevation ≥ min_elevation, elevation)

/-- The per-sample body of `SatelliteTracker.calculate_ground_track`
(`segment1.py` lines 40-55), structurally recursive over the list of sampled
minute offsets.  `jday` (sgp4's calendar-to-Julian conversion) and `sgp4`
(the propagator `satellite.sgp4(jd, fr)` returning an error code, position and
velocity) are external pure functions passed as arguments.  The GST expression
and the `if e == 0` append-to-both-lists logic are from the source: a sample
whose propagation fails is skipped in both output lists. -/
noncomputable def trackGo (jday : ℚ → ℝ × ℝ)
    (sgp4 : ℝ × ℝ → ℤ × (ℝ × ℝ × ℝ) × (ℝ × ℝ × ℝ)) (start_time : ℚ) :
    List ℕ → List (ℝ × ℝ × ℝ) × List ℚ
  | [] => ([], [])
  | m :: rest =>
    let current_time := start_time + (m : ℚ)
    let jdfr := jday current_time
    let gst := fmod360 ((jdfr.1 + jdfr.2 - 2451545) / 36525 * 360)
    let res := sgp4 jdfr
    let prev := trackGo jday sgp4 start_time rest
    if res.1 = 0 then
      (eci_to_lla res.2.1.1 res.2.1.2.1 res.2.1.2.2 gst :: prev.1, current_time :: prev.2)
    else prev

/-- Embedding of `SatelliteTracker.calculate_ground_track` from `segment1.py`
lines 35-57: sample minute offsets `range(0, duration_hours * 60,
step_minutes)` and collect positions and times.  Start time is a rational
absolute time in minutes; a minute offset `m` yields the instant
`start_time + m`. -/
noncomputable def calculate_ground_track (jday : ℚ → ℝ × ℝ)
    (sgp4 : ℝ × ℝ → ℤ × (ℝ × ℝ × ℝ) × (ℝ × ℝ × ℝ)) (start_time : ℚ)
    (duration_hours step_minutes : ℕ) : List (ℝ × ℝ × ℝ) × List ℚ :=
  trackGo jday sgp4 start_time
    (List.range' 0 ((duration_hours * 60 + step_minutes - 1) / step_minutes) step_minutes)

/-- Trivial calendar conversion used only to instantiate witnesses. -/
noncomputable def jdayDemo : ℚ → ℝ × ℝ := fun _ => (0, 0)

/-- Always-successful constant propagator used only to instantiate witnesses. -/
noncomputable def sgp4Demo : ℝ × ℝ → ℤ × (ℝ × ℝ × ℝ) × (ℝ × ℝ × ℝ) :=
  fun _ => (0, (0, 0, 0), (0, 0, 0))

/-! ## Helper lemmas -/

lemma e2R_pos : 0 < e2 * earth_radius := by
  unfold e2 earth_radius
  positivity

lemma atan2_of_pos_x {y x : ℝ} (hx : 0 < x) : atan2 y x = Real.arctan (y / x) := by
  unfold atan2
  rw [if_pos hx]

lemma atan2_of_pos_zero {y : ℝ} (hy : 0 < y) : atan2 y 0 = Real.pi / 2 := by
  unfold atan2
  rw [if_neg (lt_irrefl 0), if_neg (lt_irrefl 0), if_pos hy]

lemma atan2_of_neg_zero {y : ℝ} (hy : y < 0) : atan2 y 0 = -(Real.pi / 2) := by
  unfold atan2
  rw [if_neg (lt_irrefl 0), if_neg (lt_irrefl 0), if_neg (not_lt.mpr hy.le), if_pos hy]

lemma atan2_nonneg {y x : ℝ} (hy : 0 ≤ y) (hx : 0 ≤ x) : 0 ≤ atan2 y x := by
  rcases lt_or_eq_of_le hx with h | h
  · rw [atan2_of_pos_x h]
    have harc := Real.arctan_strictMono.monotone (div_nonneg hy h.le)
    rwa [Real.arctan_zero] at harc
  · rcases lt_or_eq_of_le hy with h2 | h2
    · rw [← h, atan2_of_pos_zero h2]
      positivity
    · rw [← h, ← h2]
      unfold atan2
      rw [if_neg (lt_irrefl 0), if_neg (lt_irrefl 0), if_neg (lt_irrefl 0), if_neg (lt_irrefl 0)]

lemma atan2_le_pi_div_two {y x : ℝ} (hy : 0 ≤ y) (hx : 0 ≤ x) :
    atan2 y x ≤ Real.pi / 2 := by
  rcases lt_or_eq_of_le hx with h | h
  · rw [atan2_of_pos_x h]
    exact (Real.arctan_lt_pi_div_two _).le
  · rcases lt_or_eq_of_le hy with h2 | h2
    · rw [← h, atan2_of_pos_zero h2]
    · rw [← h, ← h2]
      unfold atan2
      rw [if_neg (lt_irrefl 0), if_neg (lt_irrefl 0), if_neg (lt_irrefl 0), if_neg (lt_irrefl 0)]
      positivity

lemma atan2_lt_pi_div_two_of_pos {y x : ℝ} (hx : 0 < x) : atan2 y x < Real.pi / 2 := by
  rw [atan2_of_pos_x hx]
  exact Real.arctan_lt_pi_div_two _

lemma pi_div_two_deg : Real.pi / 2 * (180 / Real.pi) = 90 := by
  field_simp
  ring

lemma degrees_pi_div_two : degrees (Real.pi / 2) = 90 := by
  unfold degrees
  exact pi_div_two_deg

lemma degrees_neg_pi_div_two : degrees (-(Real.pi / 2)) = -90 := by
  unfold degrees
  rw [neg_mul, pi_div_two_deg]

lemma degrees_nonneg {t : ℝ} (h : 0 ≤ t) : 0 ≤ degrees t := by
  unfold degrees
  have : (0:ℝ) ≤ 180 / Real.pi := by positivity
  exact mul_nonneg h this

lemma degrees_le_90 {t : ℝ} (h : t ≤ Real.pi / 2) : degrees t ≤ 90 := by
  unfold degrees
  calc t * (180 / Real.pi) ≤ Real.pi / 2 * (180 / Real.pi) := by
        apply mul_le_mul_of_nonneg_right h
        positivity
    _ = 90 := pi_div_two_deg

lemma degrees_lt_90 {t : ℝ} (h : t < Real.pi / 2) : degrees t < 90 := by
  unfold degrees
  calc t * (180 / Real.pi) < Real.pi / 2 * (180 / Real.pi) := by
        apply mul_lt_mul_of_pos_right h
        positivity
    _ = 90 := pi_div_two_deg

lemma fmod360_eq (t : ℝ) : fmod360 t = 360 * Int.fract (t / 360) := by
  unfold fmod360
  rw [Int.fract]
  field_simp

lemma fmod360_mem (t : ℝ) : 0 ≤ fmod360 t ∧ fmod360 t < 360 := by
  rw [fmod360_eq]
  constructor
  · exact mul_nonneg (by norm_num) (Int.fract_nonneg _)
  · have h := Int.fract_lt_one (t / 360)
    have h2 : (360:ℝ) * Int.fract (t / 360) < 360 * 1 :=
      mul_lt_mul_of_pos_left h (by norm_num)
    simpa using h2

lemma latIter_pole_pos {z : ℝ} (hz : 0 < z) : latIter z 0 (Real.pi / 2) = Real.pi / 2 := by
  unfold latIter
  rw [Real.sin_pi_div_two, mul_one]
  exact atan2_of_pos_zero (by linarith [e2R_pos])

lemma latIter_pole_neg {z : ℝ} (hz : z < 0) :
    latIter z 0 (-(Real.pi / 2)) = -(Real.pi / 2) := by
  unfold latIter
  rw [Real.sin_neg, Real.sin_pi_div_two, mul_neg_one]
  exact atan2_of_neg_zero (by linarith [e2R_pos])

lemma eci_to_lla_lat (x y z gst : ℝ) :
    (eci_to_lla x y z gst).1 =
      degrees (latIter z (Real.sqrt (x ^ 2 + y ^ 2))
        (latIter z (Real.sqrt (x ^ 2 + y ^ 2))
          (latIter z (Real.sqrt (x ^ 2 + y ^ 2))
            (latIter z (Real.sqrt (x ^ 2 + y ^ 2))
              (latIter z (Real.sqrt (x ^ 2 + y ^ 2))
                (atan2 z (Real.sqrt (x ^ 2 + y ^ 2) * (1 - e2)))))))) := rfl

lemma eci_to_lla_lon (x y z gst : ℝ) :
    (eci_to_lla x y z gst).2.1 = fmod360 (degrees (atan2 y x - deg2rad gst)) := rfl

lemma eci_lat_lt_90 (x y z gst : ℝ) (hp : 0 < Real.sqrt (x ^ 2 + y ^ 2)) :
    (eci_to_lla x y z gst).1 < 90 := by
  rw [eci_to_lla_lat]
  apply degrees_lt_90
  unfold latIter
  exact atan2_lt_pi_div_two_of_pos hp

lemma elev_range_aux (alt d m : ℝ) (halt : 0 ≤ alt) (hd : 0 ≤ d) :
    0 ≤ degrees (atan2 alt d) ∧ degrees (atan2 alt d) ≤ 90 ∧
      (m ≤ 0 → degrees (atan2 alt d) ≥ m) := by
  have h1 : 0 ≤ atan2 alt d := atan2_nonneg halt hd
  exact ⟨degrees_nonneg h1, degrees_le_90 (atan2_le_pi_div_two halt hd),
    fun hm => le_trans hm (degrees_nonneg h1)⟩

lemma groupPasses_ordered : ∀ l : List ℚ, l.Pairwise (fun a b => a ≤ b) →
    ∀ p ∈ groupPasses l, p.rise ≤ p.max ∧ p.max ≤ p.set ∧ p.duration = p.set - p.rise
  | [], _, p, hp => by simp [groupPasses] at hp
  | [_], _, p, hp => by simp [groupPasses] at hp
  | [_, _], _, p, hp => by simp [groupPasses] at hp
  | t0 :: t1 :: t2 :: rest, h, p, hp => by
    rw [show groupPasses (t0 :: t1 :: t2 :: rest) =
        { rise := t0, max := t1, set := t2, duration := t2 - t0 } :: groupPasses rest
        from rfl] at hp
    rcases List.mem_cons.mp hp with hEq | hMem
    · subst hEq
      obtain ⟨h01, hrest1⟩ := List.pairwise_cons.mp h
      obtain ⟨h12, _⟩ := List.pairwise_cons.mp hrest1
      exact ⟨h01 t1 (List.mem_cons_self t1 _), h12 t2 (List.mem_cons_self t2 _), rfl⟩
    · obtain ⟨_, hrest1⟩ := List.pairwise_cons.mp h
      obtain ⟨_, hrest2⟩ := List.pairwise_cons.mp hrest1
      obtain ⟨_, hrest3⟩ := List.pairwise_cons.mp hrest2
      exact groupPasses_ordered rest hrest3 p hMem

lemma trackGo_snd (jday : ℚ → ℝ × ℝ) (sgp4 : ℝ × ℝ → ℤ × (ℝ × ℝ × ℝ) × (ℝ × ℝ × ℝ))
    (t : ℚ) : ∀ l : List ℕ, (trackGo jday sgp4 t l).2 =
      (l.filter fun m : ℕ => decide ((sgp4 (jday (t + (m : ℚ)))).1 = 0)).map
        fun m : ℕ => t + (m : ℚ)
  | [] => rfl
  | m :: rest => by
    by_cases h : (sgp4 (jday (t + (m : ℚ)))).1 = 0 <;>
      simp [trackGo, h, trackGo_snd jday sgp4 t rest]

lemma trackGo_lengths (jday : ℚ → ℝ × ℝ)
    (sgp4 : ℝ × ℝ → ℤ × (ℝ × ℝ × ℝ) × (ℝ × ℝ × ℝ)) (t : ℚ) :
    ∀ l : List ℕ, (trackGo jday sgp4 t l).1.length = (trackGo jday sgp4 t l).2.length
  | [] => rfl
  | m :: rest => by
    by_cases h : (sgp4 (jday (t + (m : ℚ)))).1 = 0 <;>
      simp [trackGo, h, trackGo_lengths jday sgp4 t rest]

lemma trackGo_len_le (jday : ℚ → ℝ × ℝ)
    (sgp4 : ℝ × ℝ → ℤ × (ℝ × ℝ × ℝ) × (ℝ × ℝ × ℝ)) (t : ℚ) (l : List ℕ) :
    (trackGo jday sgp4 t l).2.length ≤ l.length := by
  rw [trackGo_snd, List.length_map]
  exact List.length_filter_le _ _

lemma mul_lt_of_lt_ceilDiv {k s N : ℕ} (hs : 0 < s) (hk : k < (N + s - 1) / s) :
    k * s < N := by
  have h2 : (k + 1) * s ≤ N + s - 1 := (Nat.le_div_iff_mul_le hs).mp hk
  rw [Nat.succ_mul] at h2
  generalize k * s = K at h2 ⊢
  omega

/-! ## Claim C1: visibility at the threshold boundary -/

/-- C1 counterexample: a topocentric reading whose elevation is exactly equal
to the threshold (10 degrees, threshold 10) satisfies `elevation >=
min_elevation`, yet `calculate_visibility` in `open.py` classifies it as not
visible, because line 88 uses the strict comparison `elevation >
min_elevation`.  This refutes the claim that visibility is true iff
`elevation >= minElevationDeg` for every elevation and threshold. -/
theorem C1_counterexample :
    (10 : ℚ) ≥ 10 ∧
      (calculate_visibility (some { elevation := 10, azimuth := 45 }) 10).visible = false :=
  ⟨le_refl 10, by simp [calculate_visibility]⟩

/-- C1 amended: the two visibility computations in the repository disagree at
the boundary.  `calculate_visibility` (`open.py` line 88) classifies visible
iff `elevation > min_elevation` (strict), so an elevation exactly equal to the
threshold is not visible there; `SatelliteTracker.is_visible` (`segment1.py`
line 78) classifies visible iff `elevation >= min_elevation` (inclusive), as
the claim states. -/
theorem C1_amended (t : Topocentric) (m : ℚ) (sat gs : ℝ × ℝ × ℝ) (minel : ℝ) :
    ((calculate_visibility (some t) m).visible = true ↔ m < t.elevation) ∧
      ((is_visible sat gs minel).1 ↔ (is_visible sat gs minel).2 ≥ minel) := by
  constructor
  · simp [calculate_visibility]
  · exact Iff.rfl

/-! ## Claim C2: failure is masked by a fallback value, not surfaced -/

/-- C2: when any call inside `calculate_visibility`'s `try:` raises (modelled
as `geo = none`), `open.py` line 93 returns the plain fallback dictionary
`visible = False, elevation = 0, azimuth = 0`, indistinguishable from genuine
below-horizon geometry, and `get_pass_predictions` (`open.py` line 140)
likewise returns the empty list on failure.  No typed failure value exists in
the return types, contradicting the claim. -/
theorem C2_fallback_on_failure :
    calculate_visibility none 10 = { visible := false, elevation := 0, azimuth := 0 } ∧
      get_pass_predictions none = [] :=
  ⟨rfl, rfl⟩

/-! ## Claim C3: a truncated trailing pass is silently dropped -/

/-- C3: for a window whose event list holds one complete rise/peak/set triple
followed by two trailing events of a pass truncated by the window boundary,
the grouping loop of `get_pass_predictions` (`open.py` lines 124-135) emits
exactly one pass and silently drops the trailing partial pass; no truncation
tag exists in the produced records, contradicting the claim (the spec treats
this drop-on-truncation behaviour as a bug). -/
theorem C3_truncated_pass_dropped :
    get_pass_predictions (some [0, 1, 2, 3, 4]) =
      [{ rise := 0, max := 1, set := 2, duration := 2 }] := by
  simp [get_pass_predictions, groupPasses]

/-! ## Claim C5: pass record ordering invariant -/

/-- C5: for chronologically ordered event times (skyfield's `find_events`
returns times in increasing order), every pass record produced by
`get_pass_predictions` satisfies `rise ≤ max ≤ set` and
`duration = set - rise`. -/
theorem C5_pass_monotone (times : List ℚ) (h : times.Pairwise (fun a b => a ≤ b)) :
    ∀ p ∈ get_pass_predictions (some times),
      p.rise ≤ p.max ∧ p.max ≤ p.set ∧ p.duration = p.set - p.rise :=
  groupPasses_ordered times h

/-- Witness for C5 at the concrete sorted event list `[1, 2, 3]`. -/
theorem C5_witness :
    ({ rise := 1, max := 2, set := 3, duration := 2 } : PassEvent).rise ≤
        ({ rise := 1, max := 2, set := 3, duration := 2 } : PassEvent).max ∧
      ({ rise := 1, max := 2, set := 3, duration := 2 } : PassEvent).max ≤
        ({ rise := 1, max := 2, set := 3, duration := 2 } : PassEvent).set ∧
      ({ rise := 1, max := 2, set := 3, duration := 2 } : PassEvent).duration =
        ({ rise := 1, max := 2, set := 3, duration := 2 } : PassEvent).set -
          ({ rise := 1, max := 2, set := 3, duration := 2 } : PassEvent).rise :=
  C5_pass_monotone [1, 2, 3] (by norm_num)
    { rise := 1, max := 2, set := 3, duration := 2 }
    (by norm_num [get_pass_predictions, groupPasses])

/-! ## Claim C4: behaviour of the geodetic conversion on the rotation axis -/

/-- C4 counterexample: `eci_to_lla` in `segment1.py` has no epsilon
special-case for small `p`.  If the implementation special-cased `p` below
some positive epsilon, returning +90 degrees latitude directly, there would be
an epsilon below which every on- or near-axis input with `z > 0` yields
exactly 90; instead, for every strictly positive `x` (hence `p > 0`, however
small) the iterative `arctan2` formula yields latitude strictly below 90. -/
theorem C4_counterexample :
    ¬ ∃ ε : ℝ, 0 < ε ∧
      ∀ x z : ℝ, 0 < x → x < ε → 0 < z → (eci_to_lla x 0 z 0).1 = 90 := by
  rintro ⟨ε, hε, h⟩
  have h1 := h (ε / 2) 1 (by positivity) (by linarith) one_pos
  have h2 : (eci_to_lla (ε / 2) 0 1 0).1 < 90 := by
    apply eci_lat_lt_90
    rw [show (ε / 2) ^ 2 + (0 : ℝ) ^ 2 = (ε / 2) ^ 2 by ring,
      Real.sqrt_sq (by positivity)]
    positivity
  linarith

/-- C4 amended: for an inertial vector exactly on the rotation axis
(`x = y = 0`, so `p = 0`) with `z ≠ 0`, the conversion raises no numerical
error (every operation is total in the embedding, matching numpy, whose
`arctan2` handles a zero denominator) and returns latitude exactly +90 degrees
for `z > 0` and -90 for `z < 0`; this happens through the generic `arctan2`
iteration, not through an epsilon special-case, which the code does not have. -/
theorem C4_amended (z gst : ℝ) :
    (0 < z → (eci_to_lla 0 0 z gst).1 = 90) ∧
      (z < 0 → (eci_to_lla 0 0 z gst).1 = -90) := by
  have hp : Real.sqrt ((0 : ℝ) ^ 2 + 0 ^ 2) = 0 := by
    rw [show (0 : ℝ) ^ 2 + 0 ^ 2 = 0 by norm_num, Real.sqrt_zero]
  constructor
  · intro hz
    rw [eci_to_lla_lat, hp, zero_mul, atan2_of_pos_zero hz,
      latIter_pole_pos hz, latIter_pole_pos hz, latIter_pole_pos hz,
      latIter_pole_pos hz, latIter_pole_pos hz]
    exact degrees_pi_div_two
  · intro hz
    rw [eci_to_lla_lat, hp, zero_mul, atan2_of_neg_zero hz,
      latIter_pole_neg hz, latIter_pole_neg hz, latIter_pole_neg hz,
      latIter_pole_neg hz, latIter_pole_neg hz]
    exact degrees_neg_pi_div_two

/-- Witness for C4 at the concrete axis points `(0, 0, 1)` and `(0, 0, -1)`. -/
theorem C4_witness :
    (eci_to_lla 0 0 1 0).1 = 90 ∧ (eci_to_lla 0 0 (-1) 0).1 = -90 :=
  ⟨(C4_amended 1 0).1 (by norm_num), (C4_amended (-1) 0).2 (by norm_num)⟩

/-! ## Claim C6: robustness of batch TLE parsing -/

/-- C6 counterexample: in a nine-line blob holding records A, B, C where only
record B's first element line is malformed (its `EarthSatellite` construction
fails), the well-formed record C is nevertheless not loaded by
`load_tle_data`: the exception inside the loop body (`app.py` line 177)
propagates to the function-level `except` (`app.py` lines 180-181) and aborts
the rest of the batch.  This refutes "a single bad record never aborts the
whole batch". -/
theorem C6_counterexample :
    ("C", ()) ∉ load_tle_data parseDemo
      ["A", "a1", "a2", "B", "BAD", "b2", "C", "c1", "c2"] := by
  decide

/-- C6 amended: a blob with fewer than three lines yields zero satellites
without raising, and an incomplete trailing record is skipped (both as
claimed); per-record skipping holds for `fetch_tle_data` in `open.py` (a bad
record is dropped, all records before and after it still load); but in
`load_tle_data` in `app.py` a bad record aborts the remainder of the batch:
exactly the records parsed before the first failure are kept. -/
theorem C6_amended :
    (∀ (α : Type) (parse : String → String → Option α) (lines : List String),
        lines.length < 3 → load_tle_data parse lines = []) ∧
      (∀ (α : Type) (parse : String → String → Option α)
          (recs rest : List (String × String × String)) (r : String × String × String),
          parse r.2.1 r.2.2 = none →
          fetch_tle_data parse (recs ++ r :: rest) =
            fetch_tle_data parse recs ++ fetch_tle_data parse rest) ∧
      (∀ (α : Type) (parse : String → String → Option α)
          (good bad : String × String × String)
          (rest : List (String × String × String)) (s : α),
          parse good.2.1 good.2.2 = some s → parse bad.2.1 bad.2.2 = none →
          loadRecords parse (good :: bad :: rest) = [(good.1, s)]) := by
  refine ⟨?_, ?_, ?_⟩
  · intro α parse lines hlen
    rcases lines with _ | ⟨a, _ | ⟨b, _ | ⟨c, r⟩⟩⟩
    · rfl
    · rfl
    · rfl
    · simp only [List.length_cons] at hlen
      omega
  · intro α parse recs rest r hr
    obtain ⟨rn, rl1, rl2⟩ := r
    dsimp only at hr
    induction recs with
    | nil => simp [fetch_tle_data, hr]
    | cons a recs ih =>
      obtain ⟨an, al1, al2⟩ := a
      cases hpa : parse al1 al2 <;> simp [fetch_tle_data, hpa, ih]
  · intro α parse good bad rest s hg hb
    obtain ⟨gn, gl1, gl2⟩ := good
    obtain ⟨bn, bl1, bl2⟩ := bad
    dsimp only at hg hb
    simp [loadRecords, hg, hb]

/-- Witness for C6 at concrete inputs: a two-line blob loads nothing, a bad
record in `fetch_tle_data` is skipped around, and a bad second record in
`loadRecords` keeps only the first record. -/
theorem C6_witness :
    load_tle_data parseDemo ["A", "a1"] = [] ∧
      fetch_tle_data parseDemo
          ([("A", "a1", "a2")] ++ ("B", "BAD", "b2") :: [("C", "c1", "c2")]) =
        fetch_tle_data parseDemo [("A", "a1", "a2")] ++
          fetch_tle_data parseDemo [("C", "c1", "c2")] ∧
      loadRecords parseDemo [("A", "a1", "a2"), ("B", "BAD", "b2")] = [("A", ())] :=
  ⟨C6_amended.1 Unit parseDemo ["A", "a1"] (by decide),
    C6_amended.2.1 Unit parseDemo [("A", "a1", "a2")] [("C", "c1", "c2")]
      ("B", "BAD", "b2") (by decide),
    C6_amended.2.2 Unit parseDemo ("A", "a1", "a2") ("B", "BAD", "b2") [] ()
      (by decide) (by decide)⟩

/-! ## Claim C7: longitude normalization -/

/-- C7: for every inertial position vector and sidereal angle, the longitude
component returned by `eci_to_lla` lies in `[0, 360)`: the source computes
`np.degrees(lon) % 360` (`segment1.py` line 33), and the float modulo with
positive modulus 360 lands in that interval. -/
theorem C7_longitude_range (x y z gst : ℝ) :
    0 ≤ (eci_to_lla x y z gst).2.1 ∧ (eci_to_lla x y z gst).2.1 < 360 := by
  rw [eci_to_lla_lon]
  exact fmod360_mem _

/-! ## Claim C8: determinism and finiteness of the ground-track sampler -/

/-- C8: `calculate_ground_track` is a pure function of its explicit inputs
(the embedding threads the external `jday` and `sgp4` calls as arguments and
the instance constants `earth_radius`, `e2` are fixed at construction and
never mutated): two calls with equal satellite propagator, start time,
duration and step produce identical position and time sequences, and the
output is a finite list of at most
`ceil(duration_hours * 60 / step_minutes)` samples. -/
theorem C8_deterministic (jday : ℚ → ℝ × ℝ)
    (sgp4 : ℝ × ℝ → ℤ × (ℝ × ℝ × ℝ) × (ℝ × ℝ × ℝ))
    (t1 t2 : ℚ) (d1 d2 s1 s2 : ℕ) (ht : t1 = t2) (hd : d1 = d2) (hs : s1 = s2) :
    calculate_ground_track jday sgp4 t1 d1 s1 = calculate_ground_track jday sgp4 t2 d2 s2 ∧
      (calculate_ground_track jday sgp4 t1 d1 s1).2.length ≤
        (d1 * 60 + s1 - 1) / s1 := by
  subst ht hd hs
  refine ⟨rfl, ?_⟩
  have h1 : calculate_ground_track jday sgp4 t1 d1 s1 =
      trackGo jday sgp4 t1 (List.range' 0 ((d1 * 60 + s1 - 1) / s1) s1) := rfl
  rw [h1]
  exact le_trans (trackGo_len_le jday sgp4 t1 _) (le_of_eq (by simp))

/-- Witness for C8 at concrete arguments. -/
theorem C8_witness :
    calculate_ground_track jdayDemo sgp4Demo 0 1 10 =
        calculate_ground_track jdayDemo sgp4Demo 0 1 10 ∧
      (calculate_ground_track jdayDemo sgp4Demo 0 1 10).2.length ≤
        (1 * 60 + 10 - 1) / 10 :=
  C8_deterministic jdayDemo sgp4Demo 0 0 1 1 10 10 rfl rfl rfl

/-! ## Claim C9: lockstep position/time lists of the ground-track sampler -/

/-- C9: `calculate_ground_track` appends a position and its timestamp
together or skips both (`segment1.py` lines 52-55), so the two output lists
always have equal length; with a positive step, the emitted times are strictly
increasing and each is the start time offset by a multiple `k * step_minutes`
of the step below `duration_hours * 60`; a sample whose `sgp4` error code is
non-zero is omitted from both lists together. -/
theorem C9_lockstep (jday : ℚ → ℝ × ℝ)
    (sgp4 : ℝ × ℝ → ℤ × (ℝ × ℝ × ℝ) × (ℝ × ℝ × ℝ)) (t : ℚ) (d s : ℕ)
    (hs : 0 < s) :
    (calculate_ground_track jday sgp4 t d s).1.length =
        (calculate_ground_track jday sgp4 t d s).2.length ∧
      (calculate_ground_track jday sgp4 t d s).2.Pairwise (fun a b => a < b) ∧
      ∀ u ∈ (calculate_ground_track jday sgp4 t d s).2,
        ∃ k : ℕ, u = t + ((k * s : ℕ) : ℚ) ∧ k * s < d * 60 := by
  have h1 : calculate_ground_track jday sgp4 t d s =
      trackGo jday sgp4 t (List.range' 0 ((d * 60 + s - 1) / s) s) := rfl
  have h2 := trackGo_snd jday sgp4 t (List.range' 0 ((d * 60 + s - 1) / s) s)
  refine ⟨trackGo_lengths jday sgp4 t _, ?_, ?_⟩
  · rw [h1, h2, List.pairwise_map]
    refine ((List.pairwise_lt_range' 0 ((d * 60 + s - 1) / s) s hs).filter _).imp ?_
    intro a b hab
    have hq : (a : ℚ) < (b : ℚ) := by exact_mod_cast hab
    linarith
  · intro u hu
    rw [h1, h2] at hu
    rcases List.mem_map.mp hu with ⟨m, hmf, rfl⟩
    rcases List.mem_filter.mp hmf with ⟨hmr, _⟩
    rcases List.mem_range'.mp hmr with ⟨i, hi, hmi⟩
    subst hmi
    refine ⟨i, ?_, mul_lt_of_lt_ceilDiv hs hi⟩
    rw [Nat.zero_add, Nat.mul_comm]

/-- Witness for C9 at concrete arguments. -/
theorem C9_witness :
    (calculate_ground_track jdayDemo sgp4Demo 0 1 10).1.length =
        (calculate_ground_track jdayDemo sgp4Demo 0 1 10).2.length ∧
      (calculate_ground_track jdayDemo sgp4Demo 0 1 10).2.Pairwise (fun a b => a < b) ∧
      ∀ u ∈ (calculate_ground_track jdayDemo sgp4Demo 0 1 10).2,
        ∃ k : ℕ, u = 0 + ((k * 10 : ℕ) : ℚ) ∧ k * 10 < 1 * 60 :=
  C9_lockstep jdayDemo sgp4Demo 0 1 10 (by norm_num)

/-! ## Claim C10: range of the great-circle elevation in `is_visible` -/

/-- C10: for a satellite geodetic position with non-negative altitude and any
ground station, `SatelliteTracker.is_visible` returns an elevation angle in
`[0, 90]` degrees: both arguments of the final `arctan2` (the altitude and the
great-circle distance `earth_radius * c`, with `c` built from non-negative
square roots) are non-negative, so the angle can never be negative, and a
satellite above the surface is classified visible whenever the threshold is at
most zero, however far away it is on the globe. -/
theorem C10_elevation_range (sat gs : ℝ × ℝ × ℝ) (minel : ℝ)
    (halt : 0 ≤ sat.2.2) (_hsat : -90 ≤ sat.1 ∧ sat.1 ≤ 90)
    (_hgs : -90 ≤ gs.1 ∧ gs.1 ≤ 90) :
    0 ≤ (is_visible sat gs minel).2 ∧ (is_visible sat gs minel).2 ≤ 90 ∧
      (minel ≤ 0 → (is_visible sat gs minel).1) := by
  apply elev_range_aux sat.2.2 _ minel halt
  apply mul_nonneg
  · unfold earth_radius
    norm_num
  · exact mul_nonneg (by norm_num)
      (atan2_nonneg (Real.sqrt_nonneg _) (Real.sqrt_nonneg _))

/-- Witness for C10 at a concrete geometry: sub-satellite point at the
origin with 100 km altitude, ground station at latitude 10, longitude 20,
threshold -1. -/
theorem C10_witness :
    0 ≤ (is_visible (0, 0, 100) (10, 20, 0) (-1)).2 ∧
      (is_visible (0, 0, 100) (10, 20, 0) (-1)).2 ≤ 90 ∧
      ((-1 : ℝ) ≤ 0 → (is_visible (0, 0, 100) (10, 20, 0) (-1)).1) :=
  C10_elevation_range (0, 0, 100) (10, 20, 0) (-1) (by norm_num) (by norm_num)
    (by norm_num)

end EarthSat
